import Mathlib

/-!
Verification of the command-interpretation core of the voice assistant
(`voice_assistant.py`): the classifier `parse_command`, the alias-resolution
loop, the bounded conversation context used by `query_ollama`, and the
`delete_file` / `close_app` handlers.

Python string operations are embedded as executable functions on `List Char`
(wrapped in `String`), matching CPython semantics on the ASCII inputs this
program manipulates: `s.strip()`, `s.lower()`, `s.replace(pat, "")`,
`s.startswith(p)` and the containment test `a in b`.
-/

/-- Test whether `pat` occurs as a contiguous substring of `s` (Python `pat in s`). -/
def pySubstr (pat : List Char) : List Char → Bool
  | [] => pat.isEmpty
  | c :: cs => pat.isPrefixOf (c :: cs) || pySubstr pat cs

/-- Remove every occurrence of the (nonempty) pattern from `s`, scanning left
to right without overlap, exactly as Python `s.replace(pat, "")`.  The fuel
argument makes the recursion structural; `s.length` fuel always suffices since
each step consumes at least one character of `s`. -/
def removeAllFuel : List Char → Nat → List Char → List Char
  | _, _, [] => []
  | _, 0, s => s
  | [], _, s => s
  | p :: ps, Nat.succ n, c :: cs =>
    if (p :: ps).isPrefixOf (c :: cs) then removeAllFuel (p :: ps) n (cs.drop ps.length)
    else c :: removeAllFuel (p :: ps) n cs

/-- Strip whitespace from both ends (Python `s.strip()`). -/
def stripList (s : List Char) : List Char :=
  ((s.dropWhile Char.isWhitespace).reverse.dropWhile Char.isWhitespace).reverse

/-- Python `s.strip()` on `String`. -/
def pyStrip (s : String) : String := ⟨stripList s.data⟩

/-- Python `s.lower()` on `String` (ASCII case folding, as for all inputs of
this program). -/
def pyLower (s : String) : String := ⟨s.data.map Char.toLower⟩

/-- Python `s.replace(pat, "")` on `String`. -/
def pyRemove (s pat : String) : String := ⟨removeAllFuel pat.data s.data.length s.data⟩

/-- Python `pat in s` on `String`. -/
def pyIn (pat s : String) : Bool := pySubstr pat.data s.data

/-- Python `s.startswith(pre)` on `String`. -/
def pyStartsWith (s pre : String) : Bool := pre.data.isPrefixOf s.data

/-- Drop the first `n` characters of `s`; for `s` starting with an `n`-character
prefix `p` this is `s.split(p, 1)[1]` as used by `parse_command`. -/
def strDrop (s : String) (n : Nat) : String := ⟨s.data.drop n⟩

/-- The static application-alias list used by both the close-app check and the
open check of `parse_command` (`app_names` in the source, identical at both
occurrences, in source order). -/
def app_names : List String :=
  ["chrome", "google chrome", "firefox", "edge", "microsoft edge", "browser",
   "notepad", "notepad++", "code", "visual studio code", "vs code",
   "calculator", "calc", "paint", "mspaint", "word", "excel", "powerpoint",
   "spotify", "discord", "steam", "vlc", "media player",
   "settings", "control panel", "task manager", "cmd", "command prompt",
   "powershell", "explorer", "file explorer", "windows explorer"]

/-- The fixed exit-phrase set of `parse_command` (`exit_phrases` in the
source). -/
def exit_phrases : List String :=
  ["exit", "quit", "stop", "exit assistant", "close assistant",
   "quit assistant", "stop assistant", "shut down", "shutdown"]

/-- The alias-resolution loop of `parse_command`:
`for app in app_names: if app in target or target in app: return app if app in target else target`.
-/
def resolveLoop (target : String) : List String → Option String
  | [] => none
  | app :: rest =>
    if pyIn app target || pyIn target app then
      some (if pyIn app target then app else target)
    else resolveLoop target rest

/-- Resolve a spoken fragment against the application alias table
(the `for app in app_names` loop over the full static list). -/
def resolveApp (target : String) : Option String := resolveLoop target app_names

/-- The `Command` produced by the classifier: the `command_type` tags returned
by `parse_command` with their `command_data` payloads. -/
inductive Command where
  | close_app (target : String)
  | exit
  | open_app (target : String)
  | open_folder (name : String)
  | delete_file (path : String)
  | general (text : String)
deriving DecidableEq

/-- The normalisation `text = text.strip().lower()` at the top of
`parse_command`. -/
def normText (input : String) : String := pyLower (pyStrip input)

/-- The close-path remainder: `text.split('close', 1)[1].strip()` followed by
`.replace('the', '').replace('app', '').replace('application', '').strip()`. -/
def closeTarget (text : String) : String :=
  pyStrip (pyRemove (pyRemove (pyRemove (pyStrip (strDrop text 5)) "the") "app") "application")

/-- The open-path remainder: `text.split('open', 1)[1].strip()` followed by
`.replace('folder', '').replace('the', '').replace('app', '').replace('application', '').strip()`. -/
def openTarget (text : String) : String :=
  pyStrip (pyRemove (pyRemove (pyRemove (pyRemove (pyStrip (strDrop text 4)) "folder") "the") "app") "application")

/-- The delete-path remainder: `text.split('delete', 1)[1].strip()` followed by
`.replace('file', '').strip()`. -/
def deleteTarget (text : String) : String :=
  pyStrip (pyRemove (pyStrip (strDrop text 6)) "file")

/-- The exit test of `parse_command`: `text in exit_phrases or
text.startswith('exit assistant') or text.startswith('close assistant') or
text.startswith('quit assistant')`. -/
def isExitText (text : String) : Bool :=
  exit_phrases.any (fun p => text.data == p.data) ||
    pyStartsWith text "exit assistant" ||
    pyStartsWith text "close assistant" ||
    pyStartsWith text "quit assistant"

/-- The classifier `VoiceAssistant.parse_command`, rule for rule and in source
order: close-app check (falling through when no alias resolves), exit check,
open check (app table first, folder otherwise), delete check, general
default. -/
def parse_command (input : String) : Command :=
  let text := normText input
  match (if pyStartsWith text "close" then resolveApp (closeTarget text) else none) with
  | some t => Command.close_app t
  | none =>
    if isExitText text then Command.exit
    else if pyStartsWith text "open" then
      match resolveApp (openTarget text) with
      | some t => Command.open_app t
      | none => Command.open_folder (openTarget text)
    else if pyStartsWith text "delete file" || pyStartsWith text "delete" then
      Command.delete_file (deleteTarget text)
    else Command.general text

/-- One conversational exchange, as stored in `CONVERSATION_CONTEXT`:
a dict `{'user': ..., 'assistant': ...}`. -/
structure Turn where
  user : String
  assistant : String
deriving DecidableEq

/-- The constant `MAX_CONTEXT_LENGTH` from the source. -/
def MAX_CONTEXT_LENGTH : Nat := 10

/-- The context update in the success branch of `query_ollama`:
`CONVERSATION_CONTEXT.append(...)` followed by
`if len(CONVERSATION_CONTEXT) > MAX_CONTEXT_LENGTH: CONVERSATION_CONTEXT.pop(0)`. -/
def pushTurn (ctx : List Turn) (t : Turn) : List Turn :=
  if (ctx ++ [t]).length > MAX_CONTEXT_LENGTH then (ctx ++ [t]).drop 1 else ctx ++ [t]

/-- A sequence of successful exchanges applied to the initially empty
conversation context. -/
def runTurns (ts : List Turn) : List Turn := ts.foldl pushTurn []

/-- The composite prompt built by `query_ollama` from the last
`MAX_CONTEXT_LENGTH` turns (`CONVERSATION_CONTEXT[-MAX_CONTEXT_LENGTH:]`)
as alternating `User:`/`Assistant:` lines, followed by the new prompt. -/
def context_prompt (ctx : List Turn) (prompt : String) : String :=
  if ctx.isEmpty then prompt
  else
    let context := String.intercalate "\n"
      ((ctx.drop (ctx.length - MAX_CONTEXT_LENGTH)).map
        (fun t => "User: " ++ t.user ++ "\nAssistant: " ++ t.assistant))
    context ++ "\nUser: " ++ prompt ++ "\nAssistant:"

/-- Outcome of `requests.post` towards Ollama, as `query_ollama` observes it:
a response with a status code and an optional `response` field, a raised
`ConnectionError`, or a raised `Timeout`. -/
inductive PostResult where
  | ok (status_code : Nat) (response : Option String)
  | connError
  | timeout
deriving DecidableEq

/-- Fixed sentence for `requests.exceptions.ConnectionError`. -/
def connect_error_message : String :=
  "I cannot connect to Ollama. Please ensure Ollama is running and accessible at http://localhost:11434"

/-- Fixed sentence for `requests.exceptions.Timeout`. -/
def timeout_message : String := "The request to Ollama timed out. Please try again."

/-- Sentence for a non-200 status code
(`f"Error: Ollama API returned status code {response.status_code}"`). -/
def status_code_message (code : Nat) : String :=
  "Error: Ollama API returned status code " ++ toString code

/-- Fallback answer when the 200 response lacks a `response` field. -/
def default_answer : String := "I apologize, but I could not generate a response."

/-- The handler `VoiceAssistant.query_ollama`: builds the composite prompt, posts it, and
on a 200 response returns the answer and appends the `(prompt, answer)` turn
(bounded by `pushTurn`); every failure returns its status sentence with the
context unchanged.  The collaborator `post` stands for `requests.post`. -/
def query_ollama (post : String → PostResult) (ctx : List Turn) (prompt : String) :
    String × List Turn :=
  match post (context_prompt ctx prompt) with
  | PostResult.ok code resp =>
    if code = 200 then
      let answer := resp.getD default_answer
      (answer, pushTurn ctx { user := prompt, assistant := answer })
    else (status_code_message code, ctx)
  | PostResult.connError => (connect_error_message, ctx)
  | PostResult.timeout => (timeout_message, ctx)

/-- The filesystem collaborator consumed by `delete_file`: `os.path.isabs`,
`os.path.exists`, `os.path.isdir`, `os.path.abspath`, `Path.home() / p`,
`os.path.basename`. -/
structure Filesystem where
  isAbs : String → Bool
  pathExists : String → Bool
  isDir : String → Bool
  abspath : String → String
  homeJoin : String → String
  basename : String → String

/-- Path resolution in `delete_file`: absolute paths are taken as given,
otherwise the path is tried relative to the current directory when it exists
there, else relative to the home directory. -/
def resolvePath (fs : Filesystem) (file_path : String) : String :=
  if fs.isAbs file_path then file_path
  else if fs.pathExists file_path then fs.abspath file_path
  else fs.homeJoin file_path

/-- Observable outcome of one `delete_file` call: the returned status string,
whether `os.remove` was invoked, and whether the confirmation prompt was
spoken. -/
structure DeleteOutcome where
  status : String
  deleted : Bool
  promptSpoken : Bool
deriving DecidableEq

/-- The handler `VoiceAssistant.delete_file`: resolve the path; missing file and directory
cases return early without speaking the confirmation prompt; otherwise the
prompt is spoken and `os.remove` runs only when the (possibly absent) spoken
confirmation is non-empty and contains "yes" after lowercasing
(`if confirmation and 'yes' in confirmation.lower()`). -/
def delete_file (fs : Filesystem) (confirmation : Option String) (file_path : String) :
    DeleteOutcome :=
  let fp := pyStrip file_path
  let resolved := resolvePath fs fp
  if fs.pathExists resolved = false then
    { status := "Sorry, I couldn\x27t find the file \x27" ++ fp ++ "\x27.",
      deleted := false, promptSpoken := false }
  else if fs.isDir resolved then
    { status := "\x27" ++ fp ++ "\x27 is a folder, not a file. I can only delete files.",
      deleted := false, promptSpoken := false }
  else
    let affirmative := match confirmation with
      | none => false
      | some c => !c.data.isEmpty && pyIn "yes" (pyLower c)
    if affirmative then
      { status := "Deleted " ++ fs.basename resolved ++ " successfully.",
        deleted := true, promptSpoken := true }
    else
      { status := "Deletion cancelled.", deleted := false, promptSpoken := true }

/-- The app-name → process-name table of `close_app` (`process_map` in the
source, in source order). -/
def process_map : List (String × String) :=
  [("chrome", "chrome.exe"), ("google chrome", "chrome.exe"), ("firefox", "firefox.exe"),
   ("edge", "msedge.exe"), ("microsoft edge", "msedge.exe"), ("notepad", "notepad.exe"),
   ("notepad++", "notepad++.exe"), ("code", "Code.exe"), ("visual studio code", "Code.exe"),
   ("vs code", "Code.exe"), ("calculator", "Calculator.exe"), ("calc", "Calculator.exe"),
   ("paint", "mspaint.exe"), ("mspaint", "mspaint.exe"), ("word", "WINWORD.EXE"),
   ("excel", "EXCEL.EXE"), ("powerpoint", "POWERPNT.EXE"), ("spotify", "Spotify.exe"),
   ("discord", "Discord.exe"), ("steam", "steam.exe"), ("vlc", "vlc.exe"),
   ("settings", "SystemSettings.exe"), ("cmd", "cmd.exe"), ("command prompt", "cmd.exe"),
   ("powershell", "powershell.exe")]

/-- The canonical process identifier used by `close_app`: the `process_map`
entry for `app_name.lower().strip()` when present, else `app_name + '.exe'`. -/
def processNameFor (app_name : String) : String :=
  let lower := pyStrip (pyLower app_name)
  match process_map.find? (fun kv => kv.1.data == lower.data) with
  | some kv => kv.2
  | none => app_name ++ ".exe"

/-- Observable outcome of one `close_app` call: the status string and the
processes whose termination was requested. -/
structure CloseOutcome where
  status : String
  terminated : List String
deriving DecidableEq

/-- The handler `VoiceAssistant.close_app` on the psutil path: terminate every running
process whose name matches the canonical process identifier
case-insensitively, then report `"Closed {app_name}."` when at least one was
terminated and `"{app_name} is not currently running."` otherwise.
`processes` is the list of running process names observed via
`psutil.process_iter`. -/
def close_app (processes : List String) (app_name : String) : CloseOutcome :=
  { status :=
      if (processes.filter
            (fun n => (pyLower n).data == (pyLower (processNameFor app_name)).data)).length > 0
      then "Closed " ++ app_name ++ "."
      else app_name ++ " is not currently running.",
    terminated :=
      processes.filter
        (fun n => (pyLower n).data == (pyLower (processNameFor app_name)).data) }

/-- Eleven distinct turns, for exercising the FIFO bound of the context. -/
def elevenTurns : List Turn :=
  (List.range 11).map (fun i => { user := "user " ++ toString i, assistant := "reply " ++ toString i })

/-- A concrete filesystem in which every path exists, is a file, and is
absolute. -/
def fsAllFiles : Filesystem :=
  { isAbs := fun _ => true, pathExists := fun _ => true, isDir := fun _ => false,
    abspath := id, homeJoin := id, basename := id }

/-- A concrete filesystem in which every path exists and is a directory. -/
def fsAllDirs : Filesystem :=
  { isAbs := fun _ => true, pathExists := fun _ => true, isDir := fun _ => true,
    abspath := id, homeJoin := id, basename := id }

/-- A collaborator whose every post raises `ConnectionError`. -/
def postConnError : String → PostResult := fun _ => PostResult.connError

/-! ### Helper lemmas -/

theorem string_data_append (a b : String) : (a ++ b).data = a.data ++ b.data := by
  cases a; cases b; rfl

theorem startsWith_false_of_incomp {t p q : String} (hs : pyStartsWith t p = true)
    (h1 : ¬ q.data <+: p.data) (h2 : ¬ p.data <+: q.data) : pyStartsWith t q = false := by
  unfold pyStartsWith at hs ⊢
  rw [List.isPrefixOf_iff_prefix] at hs
  by_contra hq
  rw [Bool.not_eq_false, List.isPrefixOf_iff_prefix] at hq
  rcases List.prefix_or_prefix_of_prefix hq hs with h | h
  exacts [h1 h, h2 h]

theorem startsWith_mono {t p q : String} (hs : pyStartsWith t p = true)
    (hq : q.data <+: p.data) : pyStartsWith t q = true := by
  unfold pyStartsWith at hs ⊢
  rw [List.isPrefixOf_iff_prefix] at hs ⊢
  exact hq.trans hs

theorem isExitText_false_of_startsWith {t pre : String} (hs : pyStartsWith t pre = true)
    (hmem : ∀ p ∈ exit_phrases, ¬ pre.data <+: p.data)
    (h1 : pyStartsWith t "exit assistant" = false)
    (h2 : pyStartsWith t "close assistant" = false)
    (h3 : pyStartsWith t "quit assistant" = false) : isExitText t = false := by
  unfold isExitText
  rw [h1, h2, h3]
  simp only [Bool.or_false, List.any_eq_false]
  intro x hx hbeq
  rw [beq_iff_eq] at hbeq
  have hpre : pre.data <+: t.data := List.isPrefixOf_iff_prefix.mp hs
  rw [hbeq] at hpre
  exact hmem x hx hpre

theorem open_not_close {t : String} (hs : pyStartsWith t "open" = true) :
    pyStartsWith t "close" = false :=
  startsWith_false_of_incomp hs (by decide) (by decide)

theorem open_not_exit {t : String} (hs : pyStartsWith t "open" = true) : isExitText t = false :=
  isExitText_false_of_startsWith hs (by decide)
    (startsWith_false_of_incomp hs (by decide) (by decide))
    (startsWith_false_of_incomp hs (by decide) (by decide))
    (startsWith_false_of_incomp hs (by decide) (by decide))

theorem delete_not_close {t : String} (hs : pyStartsWith t "delete" = true) :
    pyStartsWith t "close" = false :=
  startsWith_false_of_incomp hs (by decide) (by decide)

theorem delete_not_open {t : String} (hs : pyStartsWith t "delete" = true) :
    pyStartsWith t "open" = false :=
  startsWith_false_of_incomp hs (by decide) (by decide)

theorem delete_not_exit {t : String} (hs : pyStartsWith t "delete" = true) : isExitText t = false :=
  isExitText_false_of_startsWith hs (by decide)
    (startsWith_false_of_incomp hs (by decide) (by decide))
    (startsWith_false_of_incomp hs (by decide) (by decide))
    (startsWith_false_of_incomp hs (by decide) (by decide))

theorem exit_assistant_not_close {t : String} (hs : pyStartsWith t "exit assistant" = true) :
    pyStartsWith t "close" = false :=
  startsWith_false_of_incomp hs (by decide) (by decide)

theorem quit_assistant_not_close {t : String} (hs : pyStartsWith t "quit assistant" = true) :
    pyStartsWith t "close" = false :=
  startsWith_false_of_incomp hs (by decide) (by decide)

theorem close_assistant_is_close {t : String} (hs : pyStartsWith t "close assistant" = true) :
    pyStartsWith t "close" = true :=
  startsWith_mono hs (by decide)

theorem parse_command_close_eq {t r : String} (hs : pyStartsWith (normText t) "close" = true)
    (hr : resolveApp (closeTarget (normText t)) = some r) :
    parse_command t = Command.close_app r := by
  simp [parse_command, hs, hr]

theorem parse_command_exit_eq {t : String}
    (hc : (if pyStartsWith (normText t) "close" then resolveApp (closeTarget (normText t))
           else none) = none)
    (he : isExitText (normText t) = true) : parse_command t = Command.exit := by
  simp [parse_command, hc, he]

theorem parse_command_open_some_eq {t a : String} (hc : pyStartsWith (normText t) "close" = false)
    (he : isExitText (normText t) = false) (ho : pyStartsWith (normText t) "open" = true)
    (hr : resolveApp (openTarget (normText t)) = some a) :
    parse_command t = Command.open_app a := by
  simp [parse_command, hc, he, ho, hr]

theorem parse_command_open_none_eq {t : String} (hc : pyStartsWith (normText t) "close" = false)
    (he : isExitText (normText t) = false) (ho : pyStartsWith (normText t) "open" = true)
    (hr : resolveApp (openTarget (normText t)) = none) :
    parse_command t = Command.open_folder (openTarget (normText t)) := by
  simp [parse_command, hc, he, ho, hr]

theorem parse_command_delete_eq {t : String} (hc : pyStartsWith (normText t) "close" = false)
    (he : isExitText (normText t) = false) (ho : pyStartsWith (normText t) "open" = false)
    (hd : pyStartsWith (normText t) "delete" = true) :
    parse_command t = Command.delete_file (deleteTarget (normText t)) := by
  simp [parse_command, hc, he, ho, hd]

theorem pushTurn_length_le (ctx : List Turn) (t : Turn) (h : ctx.length ≤ 10) :
    (pushTurn ctx t).length ≤ 10 := by
  unfold pushTurn MAX_CONTEXT_LENGTH
  by_cases hgt : (ctx ++ [t]).length > 10
  · rw [if_pos hgt]
    simp only [List.length_drop, List.length_append, List.length_cons, List.length_nil]
    omega
  · rw [if_neg hgt]
    omega

theorem foldl_pushTurn_length_le (ts : List Turn) :
    ∀ acc : List Turn, acc.length ≤ 10 → (ts.foldl pushTurn acc).length ≤ 10 := by
  induction ts with
  | nil => intro acc h; simpa using h
  | cons t ts ih => intro acc h; exact ih _ (pushTurn_length_le acc t h)

theorem resolveLoop_eq_find (target : String) (l : List String) :
    resolveLoop target l =
      (l.find? (fun app => pyIn app target || pyIn target app)).map
        (fun app => if pyIn app target then app else target) := by
  induction l with
  | nil => rfl
  | cons a l ih =>
    by_cases h : (pyIn a target || pyIn target a) = true
    · simp [resolveLoop, h, List.find?_cons_of_pos]
    · rw [Bool.not_eq_true] at h
      simp [resolveLoop, h, List.find?_cons_of_neg, ih]

theorem status_code_message_data (code : Nat) :
    (status_code_message code).data =
      'E' :: ("rror: Ollama API returned status code ".data ++ (toString code).data) := by
  show ("Error: Ollama API returned status code " ++ toString code).data = _
  rw [string_data_append]
  rfl

theorem status_code_message_ne (code : Nat) (s : String) (hs : s.data.head? ≠ some 'E') :
    status_code_message code ≠ s := by
  intro h
  apply hs
  rw [← h, status_code_message_data]
  rfl

theorem closed_ne_not_running (a : String) :
    ("Closed " ++ a ++ "." : String) ≠ a ++ " is not currently running." := by
  intro h
  have hl := congrArg (fun s => s.data.length) h
  simp only [string_data_append, List.length_append, List.length_cons, List.length_nil] at hl
  omega

/-! ### Claims -/

/-- Claim C1: classification rules run in a fixed priority order with the
close-app check before the exit check; whenever the text starts with "close"
and the remainder (after stripping "the", "app", "application") resolves
against the application alias table, `parse_command` returns `close_app` with
the resolved target — the exit rules never shadow it.  In particular
`parse_command "close chrome"` is `close_app "chrome"`. -/
theorem claim_C1 :
    (∀ t r : String, pyStartsWith (normText t) "close" = true →
      resolveApp (closeTarget (normText t)) = some r →
      parse_command t = Command.close_app r) ∧
    parse_command "close chrome" = Command.close_app "chrome" :=
  ⟨fun _ _ hs hr => parse_command_close_eq hs hr, by decide⟩

theorem claim_C1_witness : parse_command "close chrome" = Command.close_app "chrome" :=
  claim_C1.1 "close chrome" "chrome" (by decide) (by decide)

/-- Claim C2 (amended): every text of the fixed exit-phrase set classifies as
`exit` — including "close assistant", which passes through the earlier
close-app check without resolving — and so does every text starting with
"exit assistant" or "quit assistant".  A text starting with "close assistant"
classifies as `exit` provided its close-app remainder does not resolve
against the alias table (the unamended claim fails for texts such as
"close assistant chrome", whose remainder resolves; see the
counterexample). -/
theorem claim_C2 :
    (∀ p ∈ exit_phrases, parse_command p = Command.exit) ∧
    (∀ t : String, pyStartsWith (normText t) "exit assistant" = true →
      parse_command t = Command.exit) ∧
    (∀ t : String, pyStartsWith (normText t) "quit assistant" = true →
      parse_command t = Command.exit) ∧
    (∀ t : String, pyStartsWith (normText t) "close assistant" = true →
      resolveApp (closeTarget (normText t)) = none → parse_command t = Command.exit) := by
  refine ⟨by decide, fun t hs => ?_, fun t hs => ?_, fun t hs hr => ?_⟩
  · exact parse_command_exit_eq (by simp [exit_assistant_not_close hs])
      (by simp [isExitText, hs])
  · exact parse_command_exit_eq (by simp [quit_assistant_not_close hs])
      (by simp [isExitText, hs])
  · exact parse_command_exit_eq (by simp [close_assistant_is_close hs, hr])
      (by simp [isExitText, hs])

theorem claim_C2_witness : parse_command "exit" = Command.exit :=
  claim_C2.1 "exit" (by decide)

/-- Claim C2 as stated is false: "close assistant chrome" starts with
"close assistant", yet the close-app check resolves its remainder
("assistant chrome" contains the alias "chrome"), so `parse_command` returns
`close_app "chrome"`, not `exit`. -/
theorem claim_C2_counterexample :
    pyStartsWith (normText "close assistant chrome") "close assistant" = true ∧
    parse_command "close assistant chrome" = Command.close_app "chrome" ∧
    parse_command "close assistant chrome" ≠ Command.exit := by decide

/-- Claim C3: for text starting with "open", the remainder (after stripping
the prefix and the filler words "folder", "the", "app", "application") is
resolved against the application alias table first, giving `open_app` on a
match and `open_folder` with the remainder verbatim otherwise; in particular
`parse_command "open downloads"` is `open_folder "downloads"` and
`parse_command "open notepad"` is `open_app "notepad"`. -/
theorem claim_C3 :
    (∀ t a : String, pyStartsWith (normText t) "open" = true →
      resolveApp (openTarget (normText t)) = some a →
      parse_command t = Command.open_app a) ∧
    (∀ t : String, pyStartsWith (normText t) "open" = true →
      resolveApp (openTarget (normText t)) = none →
      parse_command t = Command.open_folder (openTarget (normText t))) ∧
    parse_command "open downloads" = Command.open_folder "downloads" ∧
    parse_command "open notepad" = Command.open_app "notepad" :=
  ⟨fun _ _ hs hr => parse_command_open_some_eq (open_not_close hs) (open_not_exit hs) hs hr,
   fun _ hs hr => parse_command_open_none_eq (open_not_close hs) (open_not_exit hs) hs hr,
   by decide, by decide⟩

theorem claim_C3_witness : parse_command "open notepad" = Command.open_app "notepad" :=
  claim_C3.1 "open notepad" "notepad" (by decide) (by decide)

/-- Claim C4: the conversation context keeps `length ≤ 10` across every
`pushTurn` (append, then FIFO-evict the oldest when the length exceeds 10),
hence across any number `N ≥ 0` of insertions from the empty context; after
appending 11 turns the length is exactly 10, the result is the input minus
its first element, and the first turn inserted is no longer present. -/
theorem claim_C4 :
    (∀ (ctx : List Turn) (t : Turn), ctx.length ≤ 10 → (pushTurn ctx t).length ≤ 10) ∧
    (∀ ts : List Turn, (runTurns ts).length ≤ 10) ∧
    elevenTurns.length = 11 ∧
    (runTurns elevenTurns).length = 10 ∧
    runTurns elevenTurns = elevenTurns.drop 1 ∧
    elevenTurns.head? = some (Turn.mk "user 0" "reply 0") ∧
    Turn.mk "user 0" "reply 0" ∉ runTurns elevenTurns :=
  ⟨pushTurn_length_le, fun ts => foldl_pushTurn_length_le ts [] (by simp),
   by decide, by decide, by decide, by decide, by decide⟩

theorem claim_C4_witness : (pushTurn [] (Turn.mk "u" "a")).length ≤ 10 :=
  claim_C4.1 [] (Turn.mk "u" "a") (by decide)

/-- Claim C5: `resolveApp` walks the static alias list in table order; the
first alias satisfying symmetric containment (alias substring of the fragment
or fragment substring of the alias) wins, and the value returned is that
alias when it is a substring of the fragment and the raw fragment otherwise —
exactly `find?` over the table followed by that value rule.  Any resolved
identifier is therefore the fragment itself or a table entry.  Determinism is
definitional: the embedding is a pure function of the fragment and the static
table, which the loop never mutates. -/
theorem claim_C5 (target : String) :
    resolveApp target =
      (app_names.find? (fun app => pyIn app target || pyIn target app)).map
        (fun app => if pyIn app target then app else target) ∧
    (∀ r : String, resolveApp target = some r → r = target ∨ r ∈ app_names) := by
  refine ⟨resolveLoop_eq_find target app_names, fun r hr => ?_⟩
  unfold resolveApp at hr
  rw [resolveLoop_eq_find target app_names, Option.map_eq_some'] at hr
  obtain ⟨a, ha, hfa⟩ := hr
  by_cases h : pyIn a target = true
  · rw [if_pos h] at hfa
    exact Or.inr (hfa ▸ List.mem_of_find?_eq_some ha)
  · rw [if_neg h] at hfa
    exact Or.inl hfa.symm

theorem claim_C5_witness : ("chrome" : String) = "google chrome" ∨ ("chrome" : String) ∈ app_names :=
  (claim_C5 "google chrome").2 "chrome" (by decide)

/-- Claim C6: `delete_file` removes a file only under its full guard.  For a
path resolving to a directory nothing is deleted and the confirmation prompt
is never spoken; and for a confirmation response without "yes" (the handler
lowercases the response before the containment test, and the listener only
produces lowercase text) — including no response at all — nothing is deleted,
and when the confirmation stage was reached the reported status is
"Deletion cancelled.". -/
theorem claim_C6 (fs : Filesystem) (conf : Option String) (p : String) :
    (fs.isDir (resolvePath fs (pyStrip p)) = true →
      (delete_file fs conf p).deleted = false ∧
      (delete_file fs conf p).promptSpoken = false) ∧
    ((∀ c, conf = some c → pyIn "yes" (pyLower c) = false) →
      (delete_file fs conf p).deleted = false ∧
      (fs.pathExists (resolvePath fs (pyStrip p)) = true →
        fs.isDir (resolvePath fs (pyStrip p)) = false →
        (delete_file fs conf p).status = "Deletion cancelled.")) := by
  constructor
  · intro hdir
    by_cases hex : fs.pathExists (resolvePath fs (pyStrip p)) = false
    · simp [delete_file, hex]
    · rw [Bool.not_eq_false] at hex
      simp [delete_file, hex, hdir]
  · intro hconf
    constructor
    · by_cases hex : fs.pathExists (resolvePath fs (pyStrip p)) = false
      · simp [delete_file, hex]
      · rw [Bool.not_eq_false] at hex
        by_cases hdir : fs.isDir (resolvePath fs (pyStrip p)) = true
        · simp [delete_file, hex, hdir]
        · rw [Bool.not_eq_true] at hdir
          cases conf with
          | none => simp [delete_file, hex, hdir]
          | some c => simp [delete_file, hex, hdir, hconf c rfl]
    · intro hex hdir
      cases conf with
      | none => simp [delete_file, hex, hdir]
      | some c => simp [delete_file, hex, hdir, hconf c rfl]

theorem claim_C6_witness :
    ((delete_file fsAllFiles (some "no") "a.txt").deleted = false ∧
      (delete_file fsAllFiles (some "no") "a.txt").status = "Deletion cancelled.") ∧
    (delete_file fsAllDirs none "d").deleted = false ∧
    (delete_file fsAllDirs none "d").promptSpoken = false := by
  refine ⟨?_, (claim_C6 fsAllDirs none "d").1 rfl⟩
  have h := (claim_C6 fsAllFiles (some "no") "a.txt").2 (fun c hc => by cases hc; decide)
  exact ⟨h.1, h.2 rfl rfl⟩

/-- Claim C7: each LLM failure kind yields its own recoverable status string
and leaves the conversation context untouched: a `ConnectionError` yields the
fixed "cannot connect" sentence, a timeout its own sentence, and a non-200
status code its own sentence, with no turn appended in any of these cases;
the three strings are pairwise distinct.  The model is a total function, so
none of the failures is fatal. -/
theorem claim_C7 (ctx : List Turn) (prompt : String) (post : String → PostResult) :
    (post (context_prompt ctx prompt) = PostResult.connError →
      query_ollama post ctx prompt = (connect_error_message, ctx)) ∧
    (post (context_prompt ctx prompt) = PostResult.timeout →
      query_ollama post ctx prompt = (timeout_message, ctx)) ∧
    (∀ (code : Nat) (resp : Option String), code ≠ 200 →
      post (context_prompt ctx prompt) = PostResult.ok code resp →
      query_ollama post ctx prompt = (status_code_message code, ctx)) ∧
    connect_error_message ≠ timeout_message ∧
    (∀ code : Nat, status_code_message code ≠ connect_error_message ∧
      status_code_message code ≠ timeout_message) := by
  refine ⟨fun h => ?_, fun h => ?_, fun code resp hc h => ?_, by decide,
    fun code => ⟨status_code_message_ne code _ (by decide),
      status_code_message_ne code _ (by decide)⟩⟩
  · simp [query_ollama, h]
  · simp [query_ollama, h]
  · simp [query_ollama, h, hc]

theorem claim_C7_witness : query_ollama postConnError [] "hello" = (connect_error_message, []) :=
  (claim_C7 [] "hello" postConnError).1 rfl

/-- Claim C8 (amended): `close_app` requests termination of exactly the
running processes whose name matches the canonical process identifier
case-insensitively; the status is the fixed success message
`"Closed {app}."` when at least one process was terminated — it reports
success but not the numeric count (see the counterexample to the unamended
claim) — and the distinct `"{app} is not currently running."` message when
zero processes match. -/
theorem claim_C8 (ps : List String) (app_name : String) :
    (close_app ps app_name).terminated =
      ps.filter (fun n => (pyLower n).data == (pyLower (processNameFor app_name)).data) ∧
    ((close_app ps app_name).terminated.length > 0 →
      (close_app ps app_name).status = "Closed " ++ app_name ++ ".") ∧
    ((close_app ps app_name).terminated.length = 0 →
      (close_app ps app_name).status = app_name ++ " is not currently running.") ∧
    ("Closed " ++ app_name ++ "." : String) ≠ app_name ++ " is not currently running." := by
  refine ⟨rfl, fun h => ?_, fun h => ?_, closed_ne_not_running app_name⟩
  · simp only [close_app] at h ⊢
    rw [if_pos h]
  · simp only [close_app] at h ⊢
    rw [if_neg (by omega)]

theorem claim_C8_witness :
    (close_app ["chrome.exe"] "chrome").status = "Closed " ++ "chrome" ++ "." :=
  (claim_C8 ["chrome.exe"] "chrome").2.1 (by decide)

/-- Claim C8 as stated is false in its count-reporting part: terminating one
chrome process and terminating two produce the identical status string, so
the status message cannot report the count of terminated processes. -/
theorem claim_C8_counterexample :
    (close_app ["chrome.exe"] "chrome").terminated.length = 1 ∧
    (close_app ["chrome.exe", "chrome.exe"] "chrome").terminated.length = 2 ∧
    (close_app ["chrome.exe"] "chrome").status =
      (close_app ["chrome.exe", "chrome.exe"] "chrome").status := by decide

/-- Claim C9: for text starting with "delete" (hence also for text starting
with "delete file"), the classifier strips the "delete" prefix, strips the
embedded "file" occurrences, trims, and returns `delete_file` with that
remainder; in particular `parse_command "delete file test.txt"` is
`delete_file "test.txt"`. -/
theorem claim_C9 :
    (∀ t : String, pyStartsWith (normText t) "delete" = true →
      parse_command t = Command.delete_file (deleteTarget (normText t))) ∧
    parse_command "delete file test.txt" = Command.delete_file "test.txt" :=
  ⟨fun _ hd => parse_command_delete_eq (delete_not_close hd) (delete_not_exit hd)
      (delete_not_open hd) hd,
   by decide⟩

theorem claim_C9_witness :
    parse_command "delete file test.txt" =
      Command.delete_file (deleteTarget (normText "delete file test.txt")) :=
  claim_C9.1 "delete file test.txt" (by decide)

/-- Claim C10: keyword stripping in the classifier is global substring
replacement, not word-token removal: the delete payload is the remainder with
every occurrence of the substring "file" removed (`pyRemove`) and trimmed,
even inside longer words — `parse_command "delete profile.txt"` yields
`delete_file "pro.txt"` — and on the open path "whatsapp" is mangled to
"whats" ("app" removed), which resolves to no alias, giving
`open_folder "whats"`. -/
theorem claim_C10 :
    (∀ t : String, pyStartsWith (normText t) "delete" = true →
      parse_command t =
        Command.delete_file (pyStrip (pyRemove (pyStrip (strDrop (normText t) 6)) "file"))) ∧
    parse_command "delete profile.txt" = Command.delete_file "pro.txt" ∧
    parse_command "open whatsapp" = Command.open_folder "whats" ∧
    pyRemove "profile.txt" "file" = "pro.txt" ∧
    pyRemove "whatsapp" "app" = "whats" :=
  ⟨fun _ hd => parse_command_delete_eq (delete_not_close hd) (delete_not_exit hd)
      (delete_not_open hd) hd,
   by decide, by decide, by decide, by decide⟩

theorem claim_C10_witness :
    parse_command "delete profile.txt" =
      Command.delete_file
        (pyStrip (pyRemove (pyStrip (strDrop (normText "delete profile.txt") 6)) "file")) :=
  claim_C10.1 "delete profile.txt" (by decide)
